import Mathlib

/-!
Verification of the sale-transaction core of the Inventory Management System
(src/database.py, src/main.py, src/utils.py).

The SQLite tables relevant to the verified claims are embedded as association
lists keyed by their primary key (products: integer id; sales: integer id;
coupons: text code; active_sessions: text pos_id).  SQL row updates
(UPDATE ... WHERE key = ?) become a map over the rows that rewrites the
matching ones, SQL lookups (SELECT ... WHERE key = ?) become find?, and
INSERT OR REPLACE becomes erase-then-append.  Monetary values are embedded
as rationals, dates as integer day numbers, timestamps as naturals.
-/

namespace Inventory

/-- Get the row with the given key from a table (SELECT ... WHERE key = ?).
SQLite returns the first matching row. -/
def tableGet {α β : Type} [DecidableEq α] (t : List (α × β)) (k : α) : Option β :=
  (t.find? (fun r => decide (r.1 = k))).map (·.2)

/-- Rewrite every row of the table with the given key (UPDATE ... WHERE key = ?).
Rows whose key is absent are untouched; an absent key makes the update a no-op,
exactly like the SQL UPDATE. -/
def tableUpdate {α β : Type} [DecidableEq α] (t : List (α × β)) (k : α) (f : β → β) :
    List (α × β) :=
  t.map (fun r => if r.1 = k then (r.1, f r.2) else r)

/-- One product row of the products table: the columns mutated by the sale
engine.  Stock is an integer because nothing in the code keeps the SQL
integer column nonnegative.  The untouched columns (name, category, price,
cost_price, dates, image) are irrelevant to the transaction engine and
elided from the row. -/
structure Product where
  stock : Int
  sales_count : Int
deriving DecidableEq, Repr

/-- One sales-table row: the columns read or written by
process_sale_transaction, cancel_sale_transaction and redo_sale_transaction.
items_json is the JSON list of line-item product ids, one entry per unit.
The monetary columns are carried opaquely and elided here. -/
structure Sale where
  items : List Nat
  operator : String
  status : String
  coupon_applied : Option String
  cancellation_reason : Option String
  cancelled_by : Option String
deriving DecidableEq, Repr

/-- One coupons-table row.  valid_until is a day number, the clock is
compared against it in get_coupon.  bound_mobile: Modelled from the spec: the
bound_mobile column is referenced by src/main.py (coupon marketing panel and
the get_coupon call with customer_mobile) but absent from the schema in
src/database.py; the spec describes it as an optional mobile restricting
redemption to one customer. -/
structure Coupon where
  discount_type : String
  value : ℚ
  min_bill : ℚ
  valid_until : Nat
  usage_limit : Nat
  used_count : Nat
  bound_mobile : Option String
deriving DecidableEq, Repr

/-- The slice of the database state touched by the transaction engine.
The logs table (append-only audit trail) and the customers table are written
by these operations but read by none of them, so they are elided. -/
structure DBState where
  products : List (Nat × Product)
  sales : List (Nat × Sale)
  coupons : List (String × Coupon)
  nextSaleId : Nat
deriving DecidableEq, Repr

/-- Effect of one cart line on its product row at commit:
UPDATE products SET stock = stock - 1, sales_count = sales_count + 1. -/
def saleHit (p : Product) : Product :=
  { stock := p.stock - 1, sales_count := p.sales_count + 1 }

/-- Effect of one line item on its product row at cancellation:
UPDATE products SET stock = stock + 1, sales_count = sales_count - 1. -/
def saleRestore (p : Product) : Product :=
  { stock := p.stock + 1, sales_count := p.sales_count - 1 }

/-- Apply a per-row effect once per cart entry, in cart order (the for-loops
over cart_items / items_ids in database.py). -/
def applyCart (t : List (Nat × Product)) (cart : List Nat) (f : Product → Product) :
    List (Nat × Product) :=
  cart.foldl (fun t pid => tableUpdate t pid f) t

/-- process_sale_transaction (src/database.py:248-296).  Decrements stock and
increments sales_count once per cart line, increments the coupon's used_count
when a code is attached, inserts the sale row with the default status
'Completed', and returns the fresh sale id.  The function performs no stock
check and no coupon-limit check; the customer-loyalty update and the audit
log write touch tables elided from DBState. -/
def process_sale_transaction (s : DBState) (cart : List Nat)
    (operator : String) (coupon_code : Option String) : DBState × Nat :=
  let products := applyCart s.products cart saleHit
  let coupons := match coupon_code with
    | some code => tableUpdate s.coupons code
        (fun c => { c with used_count := c.used_count + 1 })
    | none => s.coupons
  let sale : Sale :=
    { items := cart, operator := operator, status := "Completed",
      coupon_applied := coupon_code, cancellation_reason := none,
      cancelled_by := none }
  ({ products := products, coupons := coupons,
     sales := s.sales ++ [(s.nextSaleId, sale)],
     nextSaleId := s.nextSaleId + 1 }, s.nextSaleId)

/-- cancel_sale_transaction (src/database.py:299-342).  Looks the sale up,
rejects a missing id, an already-cancelled sale, and an Operator cancelling
somebody else's sale; otherwise restores stock per line item and marks the
sale cancelled with the reason and the cancelling user. -/
def cancel_sale_transaction (s : DBState) (sale_id : Nat)
    (operator role reason : String) : DBState × Bool × String :=
  match tableGet s.sales sale_id with
  | none => (s, false, "Sale ID not found")
  | some sale =>
    if sale.status = "Cancelled" then
      (s, false, "Sale already cancelled")
    else if role = "Operator" ∧ sale.operator ≠ operator then
      (s, false, "Permission Denied: Operators can only cancel their own sales.")
    else
      let products := applyCart s.products sale.items saleRestore
      let sales := tableUpdate s.sales sale_id
        (fun sl => { sl with status := "Cancelled",
                             cancellation_reason := some reason,
                             cancelled_by := some operator })
      ({ s with products := products, sales := sales }, true, "Success")

/-- redo_sale_transaction (src/database.py:344-371).  Looks the sale up,
rejects a missing id and a sale that is not cancelled; otherwise re-applies
the stock decrement per line item, resets the status to 'Completed' and
clears the cancellation columns.  The operator argument is written only to
the elided audit log: no permission is checked. -/
def redo_sale_transaction (s : DBState) (sale_id : Nat) (operator : String) :
    DBState × Bool × String :=
  match tableGet s.sales sale_id with
  | none => (s, false, "ID not found")
  | some sale =>
    if sale.status ≠ "Cancelled" then
      (s, false, "Sale is not cancelled")
    else
      let products := applyCart s.products sale.items saleHit
      let sales := tableUpdate s.sales sale_id
        (fun sl => { sl with status := "Completed",
                             cancellation_reason := none,
                             cancelled_by := none })
      ({ s with products := products, sales := sales }, true, "Success")

/-- The record written for a cancelled sale by cancel_sale_transaction. -/
def cancelledSale (reason operator : String) (sl : Sale) : Sale :=
  { sl with status := "Cancelled", cancellation_reason := some reason,
            cancelled_by := some operator }

/-- The record written when a sale is restored by redo_sale_transaction. -/
def redoneSale (sl : Sale) : Sale :=
  { sl with status := "Completed", cancellation_reason := none,
            cancelled_by := none }

/-- A one-product store with stock 2, used to exhibit the missing stock
check at commit time. -/
def c1State : DBState :=
  { products := [(1, { stock := 2, sales_count := 0 })], sales := [],
    coupons := [], nextSaleId := 7 }

/-- Initial state for the C2 witness: two products, no sales. -/
def c2s0 : DBState :=
  { products := [(1, { stock := 5, sales_count := 0 }),
                 (2, { stock := 1, sales_count := 0 })],
    sales := [], coupons := [], nextSaleId := 1 }

/-- The commit, cancel and redo of the C2 witness run. -/
def c2Commit : DBState × Nat := process_sale_transaction c2s0 [1, 1, 2] "alice" none

def c2Cancel : DBState × Bool × String :=
  cancel_sale_transaction c2Commit.1 c2Commit.2 "alice" "Operator" "test"

def c2Redo : DBState × Bool × String := redo_sale_transaction c2Cancel.1 c2Commit.2 "bob"

/-- A store holding one completed sale by alice, for the C4 witness. -/
def c4s : DBState :=
  { products := [(1, { stock := 3, sales_count := 1 })],
    sales := [(5, { items := [1], operator := "alice", status := "Completed",
                    coupon_applied := none, cancellation_reason := none,
                    cancelled_by := none })],
    coupons := [], nextSaleId := 6 }

/-- A store holding one cancelled sale, for the C5 witness. -/
def c5s : DBState :=
  { products := [(1, { stock := 4, sales_count := 1 })],
    sales := [(3, { items := [1], operator := "alice", status := "Cancelled",
                    coupon_applied := none, cancellation_reason := some "oops",
                    cancelled_by := some "alice" })],
    coupons := [], nextSaleId := 4 }

/-- The dictionary get_coupon builds for a valid coupon (code, type, value,
min_bill). -/
structure CouponInfo where
  code : String
  type : String
  value : ℚ
  min_bill : ℚ
deriving DecidableEq, Repr

/-- get_coupon (src/database.py:474-494).  Looks the code up; an unknown
code yields Invalid Code, a past valid_until yields Expired (the clock and
the column are compared as instants: expired iff now > valid_until), a
used_count at or above usage_limit yields Usage Limit Reached; otherwise the
coupon dictionary and the Valid marker are returned. -/
def get_coupon (coupons : List (String × Coupon)) (now : Nat) (code : String) :
    Option CouponInfo × String :=
  match tableGet coupons code with
  | none => (none, "Invalid Code")
  | some c =>
    if c.valid_until < now then (none, "Expired")
    else if c.usage_limit ≤ c.used_count then (none, "Usage Limit Reached")
    else (some { code := code, type := c.discount_type, value := c.value,
                 min_bill := c.min_bill }, "Valid")

/-- Modelled from the spec: src/main.py calls db.get_coupon with a
customer_mobile argument (POS coupon application and post-sale coupon
lookup) and reads a bound_mobile coupon column, but the get_coupon in
src/database.py takes neither; the version of get_coupon implementing the
binding is missing from the sources.  Following the spec's words, a coupon
carrying a bound_mobile is accepted only when it equals the purchasing
customer's mobile, with a rejection reason distinguishable from the other
three. -/
def get_coupon_checked (coupons : List (String × Coupon)) (now : Nat)
    (code : String) (customer_mobile : Option String) :
    Option CouponInfo × String :=
  match tableGet coupons code with
  | none => (none, "Invalid Code")
  | some c =>
    if c.valid_until < now then (none, "Expired")
    else if c.usage_limit ≤ c.used_count then (none, "Usage Limit Reached")
    else
      match c.bound_mobile with
      | some m =>
        if customer_mobile = some m then
          (some { code := code, type := c.discount_type, value := c.value,
                  min_bill := c.min_bill }, "Valid")
        else (none, "Coupon not valid for this customer")
      | none =>
        (some { code := code, type := c.discount_type, value := c.value,
                min_bill := c.min_bill }, "Valid")

/-- Coupon table for the C3 witness: one bound, unexpired, unused coupon. -/
def c3coupons : List (String × Coupon) :=
  [("VIP5", { discount_type := "Flat", value := 5, min_bill := 0,
              valid_until := 100, usage_limit := 3, used_count := 0,
              bound_mobile := some "9876500001" })]

/-- A store with a limit-1 coupon and one product, for the C9 failing run. -/
def c9s : DBState :=
  { products := [(1, { stock := 10, sales_count := 0 })], sales := [],
    coupons := [("FLAT10", { discount_type := "Flat", value := 10,
                             min_bill := 50, valid_until := 99999,
                             usage_limit := 1, used_count := 0,
                             bound_mobile := none })],
    nextSaleId := 1 }

/-- One cart entry of the POS session cart: one row of the products table
per unit added (the UI appends the whole product dict once per unit).  The
expiry_date column is a day number; none embeds both the NULL/empty column
and the "NA" non-expiring sentinel, which the discount code treats alike. -/
structure CartItem where
  id : Nat
  price : ℚ
  expiry_date : Option Int
deriving DecidableEq, Repr

/-- First-occurrence deduplication of the cart's product ids: the iteration
order of the item_counts dict in calculate_advanced_loss_prevention. -/
def dedupKeys : List Nat → List Nat
  | [] => []
  | x :: xs => x :: dedupKeys (xs.filter (fun y => decide (y ≠ x)))
termination_by l => l.length
decreasing_by
  simp only [List.length_cons]
  exact Nat.lt_succ_of_le (List.length_filter_le _ _)

/-- The per-SKU discount step of calculate_advanced_loss_prevention
(src/utils.py:257-288): days_left < 0 adds nothing, days_left ≤ 10 makes
every unit free, days_left ≤ 30 discounts one unit per pair (when any),
days_left ≤ 60 takes 50% off each unit, days_left ≤ 90 takes 40% off each
unit, anything later adds nothing. -/
def sku_discount (today : Int) (item : CartItem) (qty : Nat) : ℚ :=
  match item.expiry_date with
  | none => 0
  | some exp =>
    let days_left := exp - today
    if days_left < 0 then 0
    else if days_left ≤ 10 then qty * item.price
    else if days_left ≤ 30 then
      (if 0 < qty / 2 then ((qty / 2 : ℕ) : ℚ) * item.price else 0)
    else if days_left ≤ 60 then qty * item.price * (50 / 100)
    else if days_left ≤ 90 then qty * item.price * (40 / 100)
    else 0

/-- calculate_advanced_loss_prevention (src/utils.py:244-292).  Groups the
cart by product id keeping the first occurrence's row and the unit count,
then accumulates the per-SKU step discount.  The human-readable message list
the original also returns is elided. -/
def calculate_advanced_loss_prevention (today : Int) (cart : List CartItem) : ℚ :=
  (dedupKeys (cart.map (·.id))).foldl (fun acc pid =>
    match cart.find? (fun i => decide (i.id = pid)) with
    | none => acc
    | some item =>
      acc + sku_discount today item (cart.countP (fun i => decide (i.id = pid)))) 0

/-- The loss-prevention discount in the specification's words: per SKU with
q units at price p and d days remaining, d < 0 gives nothing, 0 ≤ d ≤ 10
gives q × p (every unit free), 10 < d ≤ 30 gives p × floor(q / 2),
30 < d ≤ 60 gives 50% off each unit, 60 < d ≤ 90 gives 40% off each unit,
d > 90 or the non-expiring sentinel gives nothing. -/
def spec_sku_discount (today : Int) (item : CartItem) (qty : Nat) : ℚ :=
  match item.expiry_date with
  | none => 0
  | some exp =>
    let d := exp - today
    if d < 0 then 0
    else if 0 ≤ d ∧ d ≤ 10 then qty * item.price
    else if 10 < d ∧ d ≤ 30 then item.price * ((qty / 2 : ℕ) : ℚ)
    else if 30 < d ∧ d ≤ 60 then qty * item.price * (50 / 100)
    else if 60 < d ∧ d ≤ 90 then qty * item.price * (40 / 100)
    else 0

/-- The total spec discount: the sum over the cart's SKUs. -/
def spec_loss_prevention (today : Int) (cart : List CartItem) : ℚ :=
  ((dedupKeys (cart.map (·.id))).map (fun pid =>
    match cart.find? (fun i => decide (i.id = pid)) with
    | none => 0
    | some item =>
      spec_sku_discount today item (cart.countP (fun i => decide (i.id = pid))))).sum

/-- The Quote assembled by the POS cart panel. -/
structure Quote where
  subtotal : ℚ
  discount : ℚ
  postDiscountTotal : ℚ
  tax : ℚ
  total : ℚ
deriving DecidableEq, Repr

/-- The coupon part of the discount (src/main.py:436-440): Flat coupons
discount their value, percent coupons the percentage of the subtotal. -/
def coupon_discount (applied : Option CouponInfo) (raw_total : ℚ) : ℚ :=
  match applied with
  | none => 0
  | some cp =>
    if cp.type = "Flat" then cp.value
    else if cp.type = "%" then raw_total * (cp.value / 100)
    else 0

/-- The pricing block of pos_interface (src/main.py:396-462): subtotal as
the sum of unit prices over the cart, coupon discount, loss-prevention
discount, 5% festival discount when a Festival Offer campaign is active,
loyalty points redeemed (points_to_redeem from the session state), the
post-discount total floored at zero, GST applied to the post-discount
amount when enabled, and the final total. -/
def pos_quote (today : Int) (cart : List CartItem) (applied : Option CouponInfo)
    (festivalActive : Bool) (points_redeemed : ℚ) (gst_enabled : Bool)
    (tax_rate : ℚ) : Quote :=
  let raw_total := (cart.map (·.price)).sum
  let discount := coupon_discount applied raw_total
  let loss_discount := calculate_advanced_loss_prevention today cart
  let fest_disc := if festivalActive then raw_total * (5 / 100) else 0
  let total_after_disc :=
    max 0 (raw_total - discount - fest_disc - points_redeemed - loss_discount)
  let tax_amount := if gst_enabled then total_after_disc * (tax_rate / 100) else 0
  { subtotal := raw_total, discount := discount + fest_disc + loss_discount,
    postDiscountTotal := total_after_disc, tax := tax_amount,
    total := total_after_disc + tax_amount }

/-- One row of the active_sessions table (pos_id TEXT PRIMARY KEY,
username, login_time, role). -/
structure SessionRow where
  pos_id : String
  username : String
  login_time : String
  role : String
deriving DecidableEq, Repr

/-- The session key lock_terminal writes (src/database.py:730-739): the
terminal id itself, except that an Office Dashboard login gets the composite
key built from the username and a freshly drawn random number. -/
def lock_key (pos_id username : String) (rand : Nat) : String :=
  if pos_id = "Office Dashboard" then
    "Office_" ++ username ++ "_" ++ toString rand
  else pos_id

/-- lock_terminal (src/database.py:730-739): INSERT OR REPLACE of the
session row under its key; the replace deletes any row with
the same primary key and inserts the new one. -/
def lock_terminal (tbl : List SessionRow) (pos_id username role login_time : String)
    (rand : Nat) : List SessionRow :=
  tbl.filter (fun r => decide (r.pos_id ≠ lock_key pos_id username rand)) ++
    [{ pos_id := lock_key pos_id username rand, username := username,
       login_time := login_time, role := role }]

/-- is_pos_occupied (src/database.py:721-728): Office Dashboard never
reports an occupant; a physical terminal reports the username of its
session row, when one exists. -/
def is_pos_occupied (tbl : List SessionRow) (pos_id : String) : Option String :=
  if pos_id = "Office Dashboard" then none
  else (tbl.find? (fun r => decide (r.pos_id = pos_id))).map (·.username)

/-- unlock_terminal (src/database.py:741-746): logout deletes every session
row of the username, whatever the terminal. -/
def unlock_terminal (tbl : List SessionRow) (username : String) : List SessionRow :=
  tbl.filter (fun r => decide (r.username ≠ username))

/-- force_unlock_terminal (src/database.py:618-624): admin force-release of
one terminal's lock row. -/
def force_unlock_terminal (tbl : List SessionRow) (pos_id : String) : List SessionRow :=
  tbl.filter (fun r => decide (r.pos_id ≠ pos_id))

/-- force_clear_all_sessions (src/database.py:748-753), also run at process
start by init_db. -/
def force_clear_all_sessions (_tbl : List SessionRow) : List SessionRow := []

/-- The lock-acquisition step of login_view (src/main.py:156-171): if the
terminal is occupied by a different username the login is refused with the
holder reported and the registry untouched; otherwise (free, or re-entry by
the same username) lock_terminal records the session.  The password,
account-status and terminal-status checks that also guard this path do not
touch the registry and are outside this step. -/
def login_acquire (tbl : List SessionRow) (term username role login_time : String)
    (rand : Nat) : List SessionRow × Option String :=
  match is_pos_occupied tbl term with
  | some holder =>
    if holder ≠ username then (tbl, some holder)
    else (lock_terminal tbl term username role login_time rand, none)
  | none => (lock_terminal tbl term username role login_time rand, none)

/-- The registry states reachable from the startup wipe through logins,
logouts and admin unlocks. -/
inductive Reachable : List SessionRow → Prop
  | init : Reachable []
  | login (tbl : List SessionRow) (term username role login_time : String)
      (rand : Nat) : Reachable tbl →
      Reachable (login_acquire tbl term username role login_time rand).1
  | logout (tbl : List SessionRow) (username : String) : Reachable tbl →
      Reachable (unlock_terminal tbl username)
  | force (tbl : List SessionRow) (pos_id : String) : Reachable tbl →
      Reachable (force_unlock_terminal tbl pos_id)
  | clear (tbl : List SessionRow) : Reachable tbl →
      Reachable (force_clear_all_sessions tbl)

/-- The primary-key property of active_sessions: no two rows share a
pos_id key. -/
def UniqueKeys (tbl : List SessionRow) : Prop :=
  tbl.Pairwise (fun a b => a.pos_id ≠ b.pos_id)

/-- The registry after alice logs into POS-1 from the startup wipe. -/
def c8tbl : List SessionRow := (login_acquire [] "POS-1" "alice" "Operator" "t1" 0).1

theorem tableGet_nil {α β : Type} [DecidableEq α] (k : α) :
    tableGet ([] : List (α × β)) k = none := rfl

theorem tableGet_cons_self {α β : Type} [DecidableEq α]
    (r : α × β) (t : List (α × β)) (k : α) (hr : r.1 = k) :
    tableGet (r :: t) k = some r.2 := by
  simp [tableGet, List.find?_cons_of_pos, hr]

theorem tableGet_cons_ne {α β : Type} [DecidableEq α]
    (r : α × β) (t : List (α × β)) (k : α) (hr : r.1 ≠ k) :
    tableGet (r :: t) k = tableGet t k := by
  simp only [tableGet]
  rw [List.find?_cons_of_neg _ (by simpa using hr)]

theorem tableGet_tableUpdate_self {α β : Type} [DecidableEq α]
    (t : List (α × β)) (k : α) (f : β → β) :
    tableGet (tableUpdate t k f) k = (tableGet t k).map f := by
  induction t with
  | nil => rfl
  | cons r t ih =>
    by_cases h : r.1 = k
    · simp only [tableUpdate, List.map_cons, if_pos h]
      rw [tableGet_cons_self (r.1, f r.2) _ _ h, tableGet_cons_self r t k h]
      rfl
    · simp only [tableUpdate, List.map_cons, if_neg h]
      rw [tableGet_cons_ne r _ _ h, tableGet_cons_ne r t k h]
      exact ih

theorem tableGet_tableUpdate_ne {α β : Type} [DecidableEq α]
    (t : List (α × β)) (k k' : α) (f : β → β) (h : k' ≠ k) :
    tableGet (tableUpdate t k f) k' = tableGet t k' := by
  induction t with
  | nil => rfl
  | cons r t ih =>
    by_cases hr : r.1 = k
    · simp only [tableUpdate, List.map_cons, if_pos hr]
      have hne : r.1 ≠ k' := fun hk => h (by rw [← hk, hr])
      rw [tableGet_cons_ne (r.1, f r.2) _ _ hne, tableGet_cons_ne r t k' hne]
      exact ih
    · simp only [tableUpdate, List.map_cons, if_neg hr]
      by_cases hk : r.1 = k'
      · rw [tableGet_cons_self r _ _ hk, tableGet_cons_self r t k' hk]
      · rw [tableGet_cons_ne r _ _ hk, tableGet_cons_ne r t k' hk]
        exact ih

theorem tableGet_append_fresh {α β : Type} [DecidableEq α]
    (t : List (α × β)) (k : α) (v : β) (h : ∀ r ∈ t, r.1 ≠ k) :
    tableGet (t ++ [(k, v)]) k = some v := by
  induction t with
  | nil => simp [tableGet]
  | cons r t ih =>
    rw [List.cons_append, tableGet_cons_ne _ _ _ (h r (List.mem_cons_self r t))]
    exact ih (fun r hr => h r (List.mem_cons_of_mem _ hr))

theorem tableGet_append_of_isSome {α β : Type} [DecidableEq α]
    (t extra : List (α × β)) (k : α) (h : (tableGet t k).isSome) :
    tableGet (t ++ extra) k = tableGet t k := by
  induction t with
  | nil => simp [tableGet] at h
  | cons r t ih =>
    by_cases hr : r.1 = k
    · rw [List.cons_append, tableGet_cons_self _ _ _ hr, tableGet_cons_self _ _ _ hr]
    · rw [List.cons_append, tableGet_cons_ne _ _ _ hr, tableGet_cons_ne _ _ _ hr]
      rw [tableGet_cons_ne _ _ _ hr] at h
      exact ih h

theorem saleRestore_saleHit (p : Product) : saleRestore (saleHit p) = p := by
  simp [saleRestore, saleHit]

theorem saleHit_saleRestore (p : Product) : saleHit (saleRestore p) = p := by
  simp [saleRestore, saleHit]

theorem applyCart_eq_map (t : List (Nat × Product)) (cart : List Nat)
    (f : Product → Product) :
    applyCart t cart f = t.map (fun r => (r.1, f^[cart.count r.1] r.2)) := by
  induction cart generalizing t with
  | nil =>
    simp only [applyCart, List.foldl_nil, List.count_nil, Function.iterate_zero,
      id_eq]
    have h : (fun r : Nat × Product => (r.1, r.2)) = id := funext (fun _ => rfl)
    rw [h, List.map_id]
  | cons pid rest ih =>
    simp only [applyCart, List.foldl_cons] at *
    rw [ih (tableUpdate t pid f)]
    simp only [tableUpdate, List.map_map]
    apply List.map_congr_left
    intro r _
    by_cases h : r.1 = pid
    · subst h
      simp [List.count_cons_self, Function.iterate_succ_apply]
    · simp only [Function.comp_apply, if_neg h]
      rw [List.count_cons_of_ne h]

theorem iterate_cancel {f g : Product → Product}
    (hfg : ∀ p, f (g p) = p) (n : ℕ) (p : Product) : f^[n] (g^[n] p) = p := by
  induction n generalizing p with
  | zero => rfl
  | succ n ih =>
    rw [Function.iterate_succ_apply' g, Function.iterate_succ_apply f, hfg]
    exact ih p

theorem applyCart_cancel (t : List (Nat × Product)) (cart : List Nat)
    {f g : Product → Product} (hfg : ∀ p, f (g p) = p) :
    applyCart (applyCart t cart g) cart f = t := by
  rw [applyCart_eq_map, applyCart_eq_map, List.map_map]
  have : ∀ r : Nat × Product,
      ((fun r : Nat × Product => (r.1, f^[cart.count r.1] r.2)) ∘
        (fun r : Nat × Product => (r.1, g^[cart.count r.1] r.2))) r = r := by
    intro r
    simp only [Function.comp_apply]
    rw [iterate_cancel hfg]
  calc t.map _ = t.map id := List.map_congr_left (fun r _ => this r)
    _ = t := List.map_id t

theorem cancel_eq_of_not_found (s : DBState) (sale_id : Nat)
    (operator role reason : String) (hget : tableGet s.sales sale_id = none) :
    cancel_sale_transaction s sale_id operator role reason =
      (s, false, "Sale ID not found") := by
  unfold cancel_sale_transaction
  rw [hget]

theorem cancel_eq_of_cancelled (s : DBState) (sale_id : Nat)
    (operator role reason : String) (sale : Sale)
    (hget : tableGet s.sales sale_id = some sale)
    (hst : sale.status = "Cancelled") :
    cancel_sale_transaction s sale_id operator role reason =
      (s, false, "Sale already cancelled") := by
  unfold cancel_sale_transaction
  rw [hget]
  exact if_pos hst

theorem cancel_eq_of_denied (s : DBState) (sale_id : Nat)
    (operator role reason : String) (sale : Sale)
    (hget : tableGet s.sales sale_id = some sale)
    (hst : sale.status ≠ "Cancelled")
    (hrole : role = "Operator") (hop : sale.operator ≠ operator) :
    cancel_sale_transaction s sale_id operator role reason =
      (s, false, "Permission Denied: Operators can only cancel their own sales.") := by
  unfold cancel_sale_transaction
  rw [hget]
  simp only [if_neg hst,
    if_pos (show role = "Operator" ∧ sale.operator ≠ operator from ⟨hrole, hop⟩)]

theorem cancel_eq_of_success (s : DBState) (sale_id : Nat)
    (operator role reason : String) (sale : Sale)
    (hget : tableGet s.sales sale_id = some sale)
    (hst : sale.status ≠ "Cancelled")
    (hperm : ¬(role = "Operator" ∧ sale.operator ≠ operator)) :
    cancel_sale_transaction s sale_id operator role reason =
      ({ s with products := applyCart s.products sale.items saleRestore,
                sales := tableUpdate s.sales sale_id (cancelledSale reason operator) },
       true, "Success") := by
  unfold cancel_sale_transaction
  rw [hget]
  simp only [if_neg hst, if_neg hperm]
  rfl

theorem redo_eq_of_not_found (s : DBState) (sale_id : Nat) (operator : String)
    (hget : tableGet s.sales sale_id = none) :
    redo_sale_transaction s sale_id operator = (s, false, "ID not found") := by
  unfold redo_sale_transaction
  rw [hget]

theorem redo_eq_of_not_cancelled (s : DBState) (sale_id : Nat) (operator : String)
    (sale : Sale) (hget : tableGet s.sales sale_id = some sale)
    (hst : sale.status ≠ "Cancelled") :
    redo_sale_transaction s sale_id operator = (s, false, "Sale is not cancelled") := by
  unfold redo_sale_transaction
  rw [hget]
  exact if_pos hst

theorem redo_eq_of_success (s : DBState) (sale_id : Nat) (operator : String)
    (sale : Sale) (hget : tableGet s.sales sale_id = some sale)
    (hst : sale.status = "Cancelled") :
    redo_sale_transaction s sale_id operator =
      ({ s with products := applyCart s.products sale.items saleHit,
                sales := tableUpdate s.sales sale_id redoneSale },
       true, "Success") := by
  unfold redo_sale_transaction
  rw [hget]
  simp only [if_neg (show ¬(sale.status ≠ "Cancelled") from fun h => h hst)]
  rfl

/-- C1: the claim states that committing a cart holding more units of a
product than its current stock fails atomically.  The code has no such
check: process_sale_transaction decrements stock unconditionally, so a
three-unit cart against stock 2 commits with status Completed and drives the
stock to -1.  This theorem evaluates the embedded commit at that failing
input. -/
theorem C1_commit_on_insufficient_stock_succeeds :
    (process_sale_transaction c1State [1, 1, 1] "alice" none).2 = 7 ∧
    tableGet (process_sale_transaction c1State [1, 1, 1] "alice" none).1.products 1 =
      some { stock := -1, sales_count := 3 } ∧
    tableGet (process_sale_transaction c1State [1, 1, 1] "alice" none).1.sales 7 =
      some { items := [1, 1, 1], operator := "alice", status := "Completed",
             coupon_applied := none, cancellation_reason := none,
             cancelled_by := none } :=
  ⟨rfl, rfl, rfl⟩

/-- C2: for a committed sale, cancelling and then redoing leaves every
product row (stock and sales_count) at its value right after the commit, and
a cancel alone returns every product row to its value right before the
commit.  Commit applies stock-1 / sales_count+1 per cart line, cancel
stock+1 / sales_count-1 per line item, redo stock-1 / sales_count+1 per line
item. -/
theorem C2_sale_cancel_redo_round_trip
    (s0 s1 s2 s3 : DBState) (cart : List Nat) (sid : Nat)
    (seller : String) (coupon : Option String)
    (canceller role reason redoer : String) (ok2 ok3 : Bool) (m2 m3 : String)
    (hfresh : ∀ r ∈ s0.sales, r.1 ≠ s0.nextSaleId)
    (hperm : role = "Operator" → seller = canceller)
    (h1 : process_sale_transaction s0 cart seller coupon = (s1, sid))
    (h2 : cancel_sale_transaction s1 sid canceller role reason = (s2, ok2, m2))
    (h3 : redo_sale_transaction s2 sid redoer = (s3, ok3, m3)) :
    ok2 = true ∧ ok3 = true ∧
    s3.products = s1.products ∧ s2.products = s0.products := by
  have h1a : s1 = (process_sale_transaction s0 cart seller coupon).1 := by rw [h1]
  have h1b : sid = (process_sale_transaction s0 cart seller coupon).2 := by rw [h1]
  subst h1a
  subst h1b
  have hget1 : tableGet (process_sale_transaction s0 cart seller coupon).1.sales
      (process_sale_transaction s0 cart seller coupon).2 =
      some { items := cart, operator := seller, status := "Completed",
             coupon_applied := coupon, cancellation_reason := none,
             cancelled_by := none } := by
    show tableGet (s0.sales ++ [(s0.nextSaleId, _)]) s0.nextSaleId = _
    exact tableGet_append_fresh _ _ _ hfresh
  have hcancel := cancel_eq_of_success _ _ canceller role reason _ hget1
    (show ("Completed" : String) ≠ "Cancelled" by decide)
    (fun hc => hc.2 (hperm hc.1))
  have h2' := h2.symm.trans hcancel
  rw [Prod.mk.injEq, Prod.mk.injEq] at h2'
  obtain ⟨hs2, hok2, hm2⟩ := h2'
  have hget2 : tableGet s2.sales
      (process_sale_transaction s0 cart seller coupon).2 =
      some (cancelledSale reason canceller
        { items := cart, operator := seller, status := "Completed",
          coupon_applied := coupon, cancellation_reason := none,
          cancelled_by := none }) := by
    rw [hs2]
    show tableGet (tableUpdate _ _ _) _ = _
    rw [tableGet_tableUpdate_self, hget1]
    rfl
  have hredo := redo_eq_of_success s2 _ redoer _ hget2 rfl
  have h3' := h3.symm.trans hredo
  rw [Prod.mk.injEq, Prod.mk.injEq] at h3'
  obtain ⟨hs3, hok3, hm3⟩ := h3'
  refine ⟨hok2, hok3, ?_, ?_⟩
  · rw [hs3, hs2]
    show applyCart (applyCart
        (process_sale_transaction s0 cart seller coupon).1.products
        cart saleRestore) cart saleHit =
      (process_sale_transaction s0 cart seller coupon).1.products
    exact applyCart_cancel _ _ saleHit_saleRestore
  · rw [hs2]
    show applyCart (applyCart s0.products cart saleHit) cart saleRestore =
      s0.products
    exact applyCart_cancel _ _ saleRestore_saleHit

theorem C2_sale_cancel_redo_round_trip_witness :
    c2Cancel.2.1 = true ∧ c2Redo.2.1 = true ∧
    c2Redo.1.products = c2Commit.1.products ∧ c2Cancel.1.products = c2s0.products :=
  C2_sale_cancel_redo_round_trip c2s0 c2Commit.1 c2Cancel.1 c2Redo.1 [1, 1, 2]
    c2Commit.2 "alice" none "alice" "Operator" "test" "bob"
    c2Cancel.2.1 c2Redo.2.1 c2Cancel.2.2 c2Redo.2.2
    (by simp [c2s0]) (fun _ => rfl) rfl rfl rfl

/-- C4: for a committed (non-cancelled) sale, a requester with role Operator
whose username differs from the sale's operator field receives the
permission-denied error with the state (status and all product stock)
unchanged, while a Manager or Admin requester succeeds in cancelling it
whatever reason string is supplied. -/
theorem C4_cancel_role_permissions (s : DBState) (sid : Nat) (sale : Sale)
    (user role reason : String)
    (hget : tableGet s.sales sid = some sale)
    (hstatus : sale.status ≠ "Cancelled") :
    (role = "Operator" → sale.operator ≠ user →
      cancel_sale_transaction s sid user role reason =
        (s, false, "Permission Denied: Operators can only cancel their own sales.")) ∧
    (role = "Manager" ∨ role = "Admin" →
      (cancel_sale_transaction s sid user role reason).2.1 = true ∧
      tableGet (cancel_sale_transaction s sid user role reason).1.sales sid =
        some (cancelledSale reason user sale)) := by
  constructor
  · intro hrole hop
    exact cancel_eq_of_denied s sid user role reason sale hget hstatus hrole hop
  · intro hMA
    have hperm : ¬(role = "Operator" ∧ sale.operator ≠ user) := by
      rintro ⟨hr, _⟩
      rcases hMA with h | h <;> rw [h] at hr <;> exact absurd hr (by decide)
    rw [cancel_eq_of_success s sid user role reason sale hget hstatus hperm]
    refine ⟨rfl, ?_⟩
    show tableGet (tableUpdate s.sales sid (cancelledSale reason user)) sid = _
    rw [tableGet_tableUpdate_self, hget]
    rfl

theorem C4_cancel_role_permissions_witness :
    cancel_sale_transaction c4s 5 "bob" "Operator" "why" =
      (c4s, false, "Permission Denied: Operators can only cancel their own sales.") ∧
    (cancel_sale_transaction c4s 5 "bob" "Manager" "why").2.1 = true :=
  ⟨(C4_cancel_role_permissions c4s 5
      { items := [1], operator := "alice", status := "Completed",
        coupon_applied := none, cancellation_reason := none,
        cancelled_by := none } "bob" "Operator" "why" rfl (by decide)).1
      rfl (by decide),
   ((C4_cancel_role_permissions c4s 5
      { items := [1], operator := "alice", status := "Completed",
        coupon_applied := none, cancellation_reason := none,
        cancelled_by := none } "bob" "Manager" "why" rfl (by decide)).2
      (Or.inl rfl)).1⟩

/-- C5: cancelling an already-cancelled sale yields the already-cancelled
error and redoing a non-cancelled sale yields the not-cancelled error, in
both cases with the whole state (every product row and every sale field)
unchanged; and a sale's status ever changes only from non-Cancelled to
Cancelled through cancel or from Cancelled to Completed through redo (a
commit never touches an existing sale's row). -/
theorem C5_status_state_machine (s : DBState) (sid : Nat) (sale : Sale)
    (user role reason : String)
    (hget : tableGet s.sales sid = some sale) :
    (sale.status = "Cancelled" →
      cancel_sale_transaction s sid user role reason =
        (s, false, "Sale already cancelled")) ∧
    (sale.status ≠ "Cancelled" →
      redo_sale_transaction s sid user = (s, false, "Sale is not cancelled")) ∧
    (∀ cart seller coupon,
      tableGet (process_sale_transaction s cart seller coupon).1.sales sid =
        some sale) ∧
    (∀ sale',
      tableGet (cancel_sale_transaction s sid user role reason).1.sales sid =
        some sale' →
      sale'.status ≠ sale.status →
      sale.status ≠ "Cancelled" ∧ sale'.status = "Cancelled") ∧
    (∀ sale',
      tableGet (redo_sale_transaction s sid user).1.sales sid = some sale' →
      sale'.status ≠ sale.status →
      sale.status = "Cancelled" ∧ sale'.status = "Completed") := by
  refine ⟨?_, ?_, ?_, ?_, ?_⟩
  · intro hst
    exact cancel_eq_of_cancelled s sid user role reason sale hget hst
  · intro hst
    exact redo_eq_of_not_cancelled s sid user sale hget hst
  · intro cart seller coupon
    show tableGet (s.sales ++ [_]) sid = some sale
    rw [tableGet_append_of_isSome _ _ _ (by rw [hget]; rfl)]
    exact hget
  · intro sale' hget' hne
    by_cases hst : sale.status = "Cancelled"
    · rw [cancel_eq_of_cancelled s sid user role reason sale hget hst] at hget'
      rw [hget] at hget'
      exact absurd (congrArg Sale.status (Option.some.inj hget')) (fun h => hne h.symm)
    · by_cases hp : role = "Operator" ∧ sale.operator ≠ user
      · rw [cancel_eq_of_denied s sid user role reason sale hget hst hp.1 hp.2] at hget'
        rw [hget] at hget'
        exact absurd (congrArg Sale.status (Option.some.inj hget')) (fun h => hne h.symm)
      · rw [cancel_eq_of_success s sid user role reason sale hget hst hp] at hget'
        have : tableGet (tableUpdate s.sales sid (cancelledSale reason user)) sid =
            some sale' := hget'
        rw [tableGet_tableUpdate_self, hget] at this
        have hs' := Option.some.inj this
        exact ⟨hst, by rw [← hs']; rfl⟩
  · intro sale' hget' hne
    by_cases hst : sale.status = "Cancelled"
    · rw [redo_eq_of_success s sid user sale hget hst] at hget'
      have : tableGet (tableUpdate s.sales sid redoneSale) sid = some sale' := hget'
      rw [tableGet_tableUpdate_self, hget] at this
      have hs' := Option.some.inj this
      exact ⟨hst, by rw [← hs']; rfl⟩
    · rw [redo_eq_of_not_cancelled s sid user sale hget hst] at hget'
      rw [hget] at hget'
      exact absurd (congrArg Sale.status (Option.some.inj hget')) (fun h => hne h.symm)

theorem C5_status_state_machine_witness :
    cancel_sale_transaction c5s 3 "bob" "Admin" "again" =
      (c5s, false, "Sale already cancelled") ∧
    tableGet (process_sale_transaction c5s [1] "carol" none).1.sales 3 =
      some { items := [1], operator := "alice", status := "Cancelled",
             coupon_applied := none, cancellation_reason := some "oops",
             cancelled_by := some "alice" } :=
  ⟨(C5_status_state_machine c5s 3
      { items := [1], operator := "alice", status := "Cancelled",
        coupon_applied := none, cancellation_reason := some "oops",
        cancelled_by := some "alice" } "bob" "Admin" "again" rfl).1 rfl,
   (C5_status_state_machine c5s 3
      { items := [1], operator := "alice", status := "Cancelled",
        coupon_applied := none, cancellation_reason := some "oops",
        cancelled_by := some "alice" } "bob" "Admin" "again" rfl).2.2.1
      [1] "carol" none⟩

/-- C10: redo_sale_transaction checks no permissions: for any sale whose
status is Cancelled, redo succeeds for every requesting user (the function
does not even receive a role), the result does not depend on who requests
it, and the sale is restored to Completed — in contrast to cancel, which is
role-gated. -/
theorem C10_redo_no_permission_check (s : DBState) (sid : Nat) (sale : Sale)
    (user : String) (hget : tableGet s.sales sid = some sale)
    (hst : sale.status = "Cancelled") :
    ((redo_sale_transaction s sid user).2.1 = true ∧
     tableGet (redo_sale_transaction s sid user).1.sales sid =
       some (redoneSale sale)) ∧
    (∀ u v : String, redo_sale_transaction s sid u = redo_sale_transaction s sid v) := by
  refine ⟨?_, fun u v => rfl⟩
  rw [redo_eq_of_success s sid user sale hget hst]
  refine ⟨rfl, ?_⟩
  show tableGet (tableUpdate s.sales sid redoneSale) sid = _
  rw [tableGet_tableUpdate_self, hget]
  rfl

theorem C10_redo_no_permission_check_witness :
    ((redo_sale_transaction c5s 3 "mallory").2.1 = true ∧
     tableGet (redo_sale_transaction c5s 3 "mallory").1.sales 3 =
       some (redoneSale
         { items := [1], operator := "alice", status := "Cancelled",
           coupon_applied := none, cancellation_reason := some "oops",
           cancelled_by := some "alice" })) ∧
    (∀ u v : String,
      redo_sale_transaction c5s 3 u = redo_sale_transaction c5s 3 v) :=
  C10_redo_no_permission_check c5s 3
    { items := [1], operator := "alice", status := "Cancelled",
      coupon_applied := none, cancellation_reason := some "oops",
      cancelled_by := some "alice" } "mallory" rfl rfl

/-- C3: coupon validation accepts exactly when the coupon is not expired
(now ≤ valid_until), its used_count is below usage_limit, and, when bound,
the bound mobile equals the customer's; every rejection carries a reason
distinguishing the unknown code, the expired coupon, the exhausted limit and
the wrong customer, with an unknown code yielding Invalid Code. -/
theorem C3_coupon_validation (coupons : List (String × Coupon)) (now : Nat)
    (code : String) (mobile : Option String) :
    (tableGet coupons code = none →
      get_coupon_checked coupons now code mobile = (none, "Invalid Code")) ∧
    (∀ c, tableGet coupons code = some c →
      ((get_coupon_checked coupons now code mobile).1.isSome ↔
        (now ≤ c.valid_until ∧ c.used_count < c.usage_limit ∧
         ∀ m, c.bound_mobile = some m → mobile = some m)) ∧
      (c.valid_until < now →
        get_coupon_checked coupons now code mobile = (none, "Expired")) ∧
      (now ≤ c.valid_until → c.usage_limit ≤ c.used_count →
        get_coupon_checked coupons now code mobile =
          (none, "Usage Limit Reached")) ∧
      (now ≤ c.valid_until → c.used_count < c.usage_limit →
        ∀ m, c.bound_mobile = some m → mobile ≠ some m →
        get_coupon_checked coupons now code mobile =
          (none, "Coupon not valid for this customer"))) := by
  constructor
  · intro hget
    simp only [get_coupon_checked, hget]
  · intro c hget
    refine ⟨?_, ?_, ?_, ?_⟩
    · simp only [get_coupon_checked, hget]
      by_cases hexp : c.valid_until < now
      · simp only [if_pos hexp, Option.isSome_none]
        constructor
        · intro h; exact absurd h (by decide)
        · intro h; omega
      · rw [if_neg hexp]
        by_cases hlim : c.usage_limit ≤ c.used_count
        · simp only [if_pos hlim, Option.isSome_none]
          constructor
          · intro h; exact absurd h (by decide)
          · intro h; omega
        · rw [if_neg hlim]
          cases hb : c.bound_mobile with
          | some m =>
            by_cases hm : mobile = some m
            · simp only [if_pos hm, Option.isSome_some, true_iff]
              exact ⟨by omega, by omega, fun m' hm' => (Option.some.inj hm') ▸ hm⟩
            · simp only [if_neg hm, Option.isSome_none]
              constructor
              · intro h; exact absurd h (by decide)
              · rintro ⟨-, -, hall⟩
                exact (hm (hall m rfl)).elim
          | none =>
            simp only [Option.isSome_some, true_iff]
            exact ⟨by omega, by omega, fun m' hm' => by cases hm'⟩
    · intro hexp
      simp only [get_coupon_checked, hget, if_pos hexp]
    · intro hexp hlim
      simp only [get_coupon_checked, hget,
        if_neg (show ¬c.valid_until < now by omega), if_pos hlim]
    · intro hexp hlim m hb hm
      simp only [get_coupon_checked, hget,
        if_neg (show ¬c.valid_until < now by omega),
        if_neg (show ¬c.usage_limit ≤ c.used_count by omega), hb, if_neg hm]

theorem C3_coupon_validation_witness :
    get_coupon_checked c3coupons 50 "NOPE" (some "9876500001") =
      (none, "Invalid Code") ∧
    (get_coupon_checked c3coupons 50 "VIP5" (some "9876500001")).1.isSome ∧
    get_coupon_checked c3coupons 50 "VIP5" (some "1234") =
      (none, "Coupon not valid for this customer") ∧
    get_coupon_checked c3coupons 200 "VIP5" (some "9876500001") =
      (none, "Expired") :=
  ⟨(C3_coupon_validation c3coupons 50 "NOPE" (some "9876500001")).1 rfl,
   (((C3_coupon_validation c3coupons 50 "VIP5" (some "9876500001")).2 _ rfl).1).mpr
     ⟨by decide, by decide, fun m hm => by
       exact (Option.some.inj hm) ▸ rfl⟩,
   (((C3_coupon_validation c3coupons 50 "VIP5" (some "1234")).2 _ rfl).2.2.2)
     (by decide) (by decide) "9876500001" rfl (by decide),
   (((C3_coupon_validation c3coupons 200 "VIP5" (some "9876500001")).2 _ rfl).2.1)
     (by decide)⟩

/-- C9: the claim states used_count can never exceed usage_limit across any
sequence of operations.  The code checks the limit only in get_coupon (at
coupon-apply time) while process_sale_transaction increments used_count
unconditionally, so two sessions that both validate the limit-1 coupon
FLAT10 against the same state (both see Valid) and then both commit drive
used_count to 2 with usage_limit 1.  This theorem evaluates that run. -/
theorem C9_commit_can_exceed_usage_limit :
    (get_coupon c9s.coupons 0 "FLAT10").2 = "Valid" ∧
    tableGet (process_sale_transaction
        (process_sale_transaction c9s [1] "alice" (some "FLAT10")).1
        [1] "bob" (some "FLAT10")).1.coupons "FLAT10" =
      some { discount_type := "Flat", value := 10, min_bill := 50,
             valid_until := 99999, usage_limit := 1, used_count := 2,
             bound_mobile := none } :=
  ⟨rfl, rfl⟩

theorem sku_discount_eq_spec (today : Int) (item : CartItem) (qty : Nat) :
    sku_discount today item qty = spec_sku_discount today item qty := by
  unfold sku_discount spec_sku_discount
  cases item.expiry_date with
  | none => rfl
  | some exp =>
    simp only []
    by_cases h0 : exp - today < 0
    · rw [if_pos h0, if_pos h0]
    · rw [if_neg h0, if_neg h0]
      by_cases h10 : exp - today ≤ 10
      · rw [if_pos h10, if_pos (show 0 ≤ exp - today ∧ exp - today ≤ 10 by omega)]
      · rw [if_neg h10, if_neg (show ¬(0 ≤ exp - today ∧ exp - today ≤ 10) by omega)]
        by_cases h30 : exp - today ≤ 30
        · rw [if_pos h30, if_pos (show 10 < exp - today ∧ exp - today ≤ 30 by omega)]
          by_cases hq : 0 < qty / 2
          · rw [if_pos hq]
            ring
          · rw [if_neg hq, Nat.eq_zero_of_not_pos hq]
            simp
        · rw [if_neg h30, if_neg (show ¬(10 < exp - today ∧ exp - today ≤ 30) by omega)]
          by_cases h60 : exp - today ≤ 60
          · rw [if_pos h60, if_pos (show 30 < exp - today ∧ exp - today ≤ 60 by omega)]
          · rw [if_neg h60, if_neg (show ¬(30 < exp - today ∧ exp - today ≤ 60) by omega)]
            by_cases h90 : exp - today ≤ 90
            · rw [if_pos h90, if_pos (show 60 < exp - today ∧ exp - today ≤ 90 by omega)]
            · rw [if_neg h90, if_neg (show ¬(60 < exp - today ∧ exp - today ≤ 90) by omega)]

theorem loss_foldl_eq_sum (today : Int) (cart : List CartItem)
    (keys : List Nat) (acc : ℚ) :
    (keys.foldl (fun acc pid =>
      match cart.find? (fun i => decide (i.id = pid)) with
      | none => acc
      | some item =>
        acc + sku_discount today item (cart.countP (fun i => decide (i.id = pid)))) acc) =
    acc + (keys.map (fun pid =>
      match cart.find? (fun i => decide (i.id = pid)) with
      | none => 0
      | some item =>
        spec_sku_discount today item (cart.countP (fun i => decide (i.id = pid))))).sum := by
  induction keys generalizing acc with
  | nil => simp
  | cons k ks ih =>
    simp only [List.foldl_cons, List.map_cons, List.sum_cons]
    cases hfind : cart.find? (fun i => decide (i.id = k)) with
    | none =>
      rw [ih]
      dsimp only
      ring
    | some item =>
      rw [ih]
      dsimp only
      rw [sku_discount_eq_spec]
      ring

/-- C7: the loss-prevention discount computed by the code equals the
deterministic per-SKU step function of days remaining described by the
specification, summed over the SKUs in the cart. -/
theorem C7_loss_prevention_step_function (today : Int) (cart : List CartItem) :
    calculate_advanced_loss_prevention today cart = spec_loss_prevention today cart := by
  unfold calculate_advanced_loss_prevention spec_loss_prevention
  rw [loss_foldl_eq_sum]
  ring

/-- C6: for every cart and every combination of coupon, festival,
loss-prevention and loyalty-point discounts, the post-discount total is the
subtotal minus all discounts floored at zero, hence never negative; the tax,
when GST is enabled, is the configured percentage of that post-discount
amount (not of the pre-discount subtotal); and the final total is the
post-discount amount plus the tax. -/
theorem C6_discount_floor_and_tax (today : Int) (cart : List CartItem)
    (applied : Option CouponInfo) (festivalActive : Bool)
    (points_redeemed : ℚ) (gst_enabled : Bool) (tax_rate : ℚ) :
    0 ≤ (pos_quote today cart applied festivalActive points_redeemed
          gst_enabled tax_rate).postDiscountTotal ∧
    (pos_quote today cart applied festivalActive points_redeemed
        gst_enabled tax_rate).postDiscountTotal =
      max 0 ((pos_quote today cart applied festivalActive points_redeemed
          gst_enabled tax_rate).subtotal -
        (pos_quote today cart applied festivalActive points_redeemed
          gst_enabled tax_rate).discount - points_redeemed) ∧
    (pos_quote today cart applied festivalActive points_redeemed
        gst_enabled tax_rate).tax =
      (if gst_enabled then
        (pos_quote today cart applied festivalActive points_redeemed
          gst_enabled tax_rate).postDiscountTotal * (tax_rate / 100)
       else 0) ∧
    (pos_quote today cart applied festivalActive points_redeemed
        gst_enabled tax_rate).total =
      (pos_quote today cart applied festivalActive points_redeemed
        gst_enabled tax_rate).postDiscountTotal +
      (pos_quote today cart applied festivalActive points_redeemed
        gst_enabled tax_rate).tax := by
  refine ⟨le_max_left 0 _, ?_, rfl, rfl⟩
  simp only [pos_quote]
  congr 1
  ring

theorem uniqueKeys_lock_terminal (tbl : List SessionRow)
    (pos_id username role login_time : String) (rand : Nat)
    (h : UniqueKeys tbl) :
    UniqueKeys (lock_terminal tbl pos_id username role login_time rand) := by
  unfold lock_terminal UniqueKeys
  rw [List.pairwise_append]
  refine ⟨h.filter _, List.pairwise_singleton _ _, ?_⟩
  intro a ha b hb
  have hkey := List.of_mem_filter ha
  rw [List.mem_singleton] at hb
  subst hb
  simpa using hkey

theorem login_acquire_fst (tbl : List SessionRow)
    (term username role login_time : String) (rand : Nat) :
    (login_acquire tbl term username role login_time rand).1 = tbl ∨
    (login_acquire tbl term username role login_time rand).1 =
      lock_terminal tbl term username role login_time rand := by
  unfold login_acquire
  cases is_pos_occupied tbl term with
  | some holder =>
    dsimp only
    by_cases hu : holder ≠ username
    · rw [if_pos hu]
      exact Or.inl rfl
    · rw [if_neg hu]
      exact Or.inr rfl
  | none => exact Or.inr rfl

theorem reachable_uniqueKeys (tbl : List SessionRow) (h : Reachable tbl) :
    UniqueKeys tbl := by
  induction h with
  | init => exact List.Pairwise.nil
  | login tbl term username role login_time rand _ ih =>
    rcases login_acquire_fst tbl term username role login_time rand with h | h <;> rw [h]
    · exact ih
    · exact uniqueKeys_lock_terminal tbl term username role login_time rand ih
  | logout tbl username _ ih => exact ih.filter _
  | force tbl pos_id _ ih => exact ih.filter _
  | clear tbl _ _ => exact List.Pairwise.nil

theorem uniqueKeys_key_inj (tbl : List SessionRow) (h : UniqueKeys tbl)
    (r1 r2 : SessionRow) (h1 : r1 ∈ tbl) (h2 : r2 ∈ tbl)
    (hk : r1.pos_id = r2.pos_id) : r1 = r2 := by
  induction tbl with
  | nil => cases h1
  | cons a l ih =>
    have hpc := List.pairwise_cons.mp h
    rcases List.mem_cons.mp h1 with rfl | h1'
    · rcases List.mem_cons.mp h2 with rfl | h2'
      · rfl
      · exact absurd hk (hpc.1 r2 h2')
    · rcases List.mem_cons.mp h2 with rfl | h2'
      · exact absurd hk.symm (hpc.1 r1 h1')
      · exact ih hpc.2 h1' h2'

theorem find?_filter_append_of_ne {p q : SessionRow → Bool}
    (l : List SessionRow) (x : SessionRow) (hx : p x = false)
    (hpq : ∀ r, p r = true → q r = true) :
    (l.filter q ++ [x]).find? p = l.find? p := by
  induction l with
  | nil => simp [List.find?, hx]
  | cons a l ih =>
    by_cases hq : q a = true
    · rw [List.filter_cons_of_pos hq, List.cons_append]
      by_cases hp : p a = true
      · rw [List.find?_cons_of_pos _ hp, List.find?_cons_of_pos _ hp]
      · rw [List.find?_cons_of_neg _ (by simpa using hp),
          List.find?_cons_of_neg _ (by simpa using hp)]
        exact ih
    · rw [List.filter_cons_of_neg (by simpa using hq)]
      have hp : ¬p a = true := fun hpa => hq (hpq a hpa)
      rw [List.find?_cons_of_neg _ (by simpa using hp)]
      exact ih

theorem find?_filter_append_self {k : String}
    (l : List SessionRow) (x : SessionRow) (hx : x.pos_id = k) :
    ((l.filter (fun r => decide (r.pos_id ≠ k)) ++ [x]).find?
      (fun r => decide (r.pos_id = k))) = some x := by
  induction l with
  | nil => simp [List.find?, hx]
  | cons a l ih =>
    by_cases ha : a.pos_id = k
    · rw [List.filter_cons_of_neg (by simpa using ha)]
      exact ih
    · rw [List.filter_cons_of_pos (by simpa using ha), List.cons_append,
        List.find?_cons_of_neg _ (by simpa using ha)]
      exact ih

/-- C8: in every reachable registry state a physical terminal is held by at
most one username; a login against a terminal occupied by a different
username is refused with the holder reported and the registry unchanged; a
re-login by the holding username succeeds and leaves every terminal's
occupancy as it was; the Office Dashboard never reports occupied; and an
Office Dashboard login always succeeds and, when its freshly generated
composite key is new, coexists with every prior session. -/
theorem C8_terminal_lock_registry :
    (∀ tbl, Reachable tbl → ∀ T, T ≠ "Office Dashboard" →
      ∀ r1 ∈ tbl, ∀ r2 ∈ tbl, r1.pos_id = T → r2.pos_id = T →
        r1.username = r2.username) ∧
    (∀ tbl term username role login_time rand holder,
      is_pos_occupied tbl term = some holder → holder ≠ username →
      login_acquire tbl term username role login_time rand = (tbl, some holder)) ∧
    (∀ tbl term username role login_time rand,
      is_pos_occupied tbl term = some username →
      (login_acquire tbl term username role login_time rand).2 = none ∧
      ∀ T, is_pos_occupied
          (login_acquire tbl term username role login_time rand).1 T =
        is_pos_occupied tbl T) ∧
    (∀ tbl, is_pos_occupied tbl "Office Dashboard" = none) ∧
    (∀ tbl username role login_time rand,
      (login_acquire tbl "Office Dashboard" username role login_time rand).2 =
        none ∧
      ((∀ r ∈ tbl, r.pos_id ≠ lock_key "Office Dashboard" username rand) →
        (login_acquire tbl "Office Dashboard" username role login_time rand).1 =
          tbl ++ [{ pos_id := lock_key "Office Dashboard" username rand,
                    username := username, login_time := login_time,
                    role := role }])) := by
  refine ⟨?_, ?_, ?_, ?_, ?_⟩
  · intro tbl hreach T _ r1 h1 r2 h2 hk1 hk2
    have := uniqueKeys_key_inj tbl (reachable_uniqueKeys tbl hreach) r1 r2 h1 h2
      (by rw [hk1, hk2])
    rw [this]
  · intro tbl term username role login_time rand holder hocc hne
    unfold login_acquire
    rw [hocc]
    dsimp only
    rw [if_pos hne]
  · intro tbl term username role login_time rand hocc
    have hterm : term ≠ "Office Dashboard" := by
      intro h
      rw [h] at hocc
      simp [is_pos_occupied] at hocc
    have hstep : login_acquire tbl term username role login_time rand =
        (lock_terminal tbl term username role login_time rand, none) := by
      unfold login_acquire
      rw [hocc]
      dsimp only
      rw [if_neg (fun h => h rfl)]
    refine ⟨by rw [hstep], ?_⟩
    intro T
    rw [hstep]
    dsimp only
    by_cases hT : T = "Office Dashboard"
    · simp [is_pos_occupied, hT]
    · unfold is_pos_occupied
      rw [if_neg hT, if_neg hT]
      by_cases hTt : T = term
      · subst hTt
        unfold lock_terminal
        have hkey : lock_key T username rand = T := if_neg hterm
        rw [hkey]
        rw [find?_filter_append_self (k := T) tbl _ rfl]
        unfold is_pos_occupied at hocc
        rw [if_neg hterm] at hocc
        rw [hocc]
        rfl
      · unfold lock_terminal
        have hkey : lock_key term username rand = term := if_neg hterm
        rw [hkey]
        rw [find?_filter_append_of_ne tbl _ (by simpa using Ne.symm hTt)
          (fun r hr => by
            simp only [decide_eq_true_eq] at hr
            simpa [hr] using hTt)]
  · intro tbl
    rfl
  · intro tbl username role login_time rand
    refine ⟨rfl, ?_⟩
    intro hfresh
    show lock_terminal tbl "Office Dashboard" username role login_time rand = _
    unfold lock_terminal
    congr 1
    apply List.filter_eq_self.mpr
    intro r hr
    simpa using hfresh r hr

theorem C8_terminal_lock_registry_witness :
    (∀ r1 ∈ c8tbl, ∀ r2 ∈ c8tbl, r1.pos_id = "POS-1" → r2.pos_id = "POS-1" →
      r1.username = r2.username) ∧
    login_acquire c8tbl "POS-1" "bob" "Operator" "t2" 1 = (c8tbl, some "alice") ∧
    (login_acquire c8tbl "POS-1" "alice" "Operator" "t3" 2).2 = none ∧
    is_pos_occupied c8tbl "Office Dashboard" = none ∧
    (login_acquire c8tbl "Office Dashboard" "carol" "Manager" "t4" 5).2 = none :=
  ⟨C8_terminal_lock_registry.1 c8tbl
      (Reachable.login [] "POS-1" "alice" "Operator" "t1" 0 Reachable.init)
      "POS-1" (by decide),
   C8_terminal_lock_registry.2.1 c8tbl "POS-1" "bob" "Operator" "t2" 1 "alice"
      rfl (by decide),
   (C8_terminal_lock_registry.2.2.1 c8tbl "POS-1" "alice" "Operator" "t3" 2 rfl).1,
   C8_terminal_lock_registry.2.2.2.1 c8tbl,
   (C8_terminal_lock_registry.2.2.2.2 c8tbl "carol" "Manager" "t4" 5).1⟩

end Inventory
